import Mathlib

/-
Verification of the scroll.js reference-counted scroll lock.

The repository ships only the declaration file src/scroll.js/scroll.d.ts;
the implementation scroll.js itself is not present. The behaviour of every
operation is therefore modelled from the specification (spec.md §3, §4.1)
and the doc comments of scroll.d.ts, which agree with it.

The state carries the lock count, the external viewport collaborator
(the body overflow style together with the prior value saved at the
0→1 transition), and two counters recording how many times the external
apply-block and remove-block effects have been invoked.
-/

set_option autoImplicit false

namespace ScrollJS

/-- Modelled from the spec: the `ScrollAction` union type of scroll.d.ts,
a string token or a boolean. The string literal types of the TypeScript
union are represented as arbitrary strings; the dispatcher matches the
listed tokens exactly. -/
inductive ScrollAction where
  | str (tok : String)
  | boolean (v : Bool)
deriving DecidableEq

/-- Modelled from the spec: the whole mutable state touched by scroll.js.
`lockCount` is LockCount (spec §3, an integer, invariantly non-negative);
`overflow` is the body overflow style of the external viewport collaborator;
`savedOverflow` is the prior overflow value captured when the block is
applied; `applyCount` and `removeCount` record how many times the external
apply-block and remove-block effects have been invoked. -/
@[ext]
structure ScrollState where
  lockCount : Int
  overflow : String
  savedOverflow : String
  applyCount : Nat
  removeCount : Nat
deriving DecidableEq

/-- Modelled from the spec: the initial state — LockCount 0, the body
overflow style at whatever value `v` the host page gave it, no external
effect invoked yet. -/
def initState (v : String) : ScrollState :=
  { lockCount := 0, overflow := v, savedOverflow := "", applyCount := 0,
    removeCount := 0 }

/-- Modelled from the spec: `lock()` (scroll.js is absent; scroll.d.ts lines
57-62 declare it). Increments LockCount by 1; on the 0→1 transition invokes
the external apply-block effect, which saves the prior body overflow value
and sets the overflow style to "hidden". Returns false unconditionally. -/
def lock (s : ScrollState) : ScrollState × Bool :=
  if s.lockCount = 0 then
    ({ s with
        lockCount := 1
        savedOverflow := s.overflow
        overflow := "hidden"
        applyCount := s.applyCount + 1 }, false)
  else
    ({ s with lockCount := s.lockCount + 1 }, false)

/-- Modelled from the spec: `unlock()` (scroll.js is absent; scroll.d.ts
lines 63-68 declare it). If LockCount > 0 it decrements by 1; when the
decrement reaches 0 it invokes the external remove-block effect, restoring
the saved prior overflow value. At LockCount 0 it is a no-op. Returns true
unconditionally. -/
def unlock (s : ScrollState) : ScrollState × Bool :=
  if 0 < s.lockCount then
    if s.lockCount - 1 = 0 then
      ({ s with
          lockCount := 0
          overflow := s.savedOverflow
          removeCount := s.removeCount + 1 }, true)
    else
      ({ s with lockCount := s.lockCount - 1 }, true)
  else
    (s, true)

/-- Modelled from the spec: `isLocked()` — returns LockCount > 0 and leaves
the state untouched. Kept in the uniform state-passing shape of the other
methods so that freedom from side effects is a provable statement. -/
def isLocked (s : ScrollState) : ScrollState × Bool :=
  (s, decide (0 < s.lockCount))

/-- Modelled from the spec: `getCount()` — returns the current LockCount and
leaves the state untouched. -/
def getCount (s : ScrollState) : ScrollState × Int :=
  (s, s.lockCount)

/-- Modelled from the spec: `toggle()` — behaves as `unlock()` when currently
locked, as `lock()` otherwise. -/
def toggle (s : ScrollState) : ScrollState × Bool :=
  if (isLocked s).2 then unlock s else lock s

/-- Modelled from the spec: `enable()`, alias for `unlock()`. -/
def enable (s : ScrollState) : ScrollState × Bool :=
  unlock s

/-- Modelled from the spec: `disable()`, alias for `lock()`. -/
def disable (s : ScrollState) : ScrollState × Bool :=
  lock s

/-- Modelled from the spec: the callable entry point `scroll(action?)` of
scroll.d.ts lines 19-56. Dispatch: absent or "toggle" goes to `toggle()`;
"lock", "on", "1", boolean false go to `lock()`; "unlock", "off", "0",
boolean true go to `unlock()`; any other string token falls back to
`toggle()` as the defensive default. -/
def scroll (action : Option ScrollAction) (s : ScrollState) :
    ScrollState × Bool :=
  match action with
  | none => toggle s
  | some (ScrollAction.str "lock") => lock s
  | some (ScrollAction.str "on") => lock s
  | some (ScrollAction.str "1") => lock s
  | some (ScrollAction.boolean false) => lock s
  | some (ScrollAction.str "unlock") => unlock s
  | some (ScrollAction.str "off") => unlock s
  | some (ScrollAction.str "0") => unlock s
  | some (ScrollAction.boolean true) => unlock s
  | some (ScrollAction.str _) => toggle s

/-- A single state-changing operation of the public surface, for reasoning
about arbitrary call sequences. -/
inductive Op where
  | lock
  | unlock
  | toggle
  | enable
  | disable
  | call (action : Option ScrollAction)
deriving DecidableEq

/-- The state after performing one operation (discarding the returned
boolean). -/
def step (s : ScrollState) (op : Op) : ScrollState :=
  match op with
  | Op.lock => (lock s).1
  | Op.unlock => (unlock s).1
  | Op.toggle => (toggle s).1
  | Op.enable => (enable s).1
  | Op.disable => (disable s).1
  | Op.call a => (scroll a s).1

/-- The state after performing a sequence of operations. -/
def run (s : ScrollState) (ops : List Op) : ScrollState :=
  ops.foldl step s

/-- The state invariant: LockCount is never negative, and whenever it is
positive the body overflow style is "hidden". -/
def Inv (s : ScrollState) : Prop :=
  0 ≤ s.lockCount ∧ (0 < s.lockCount → s.overflow = "hidden")

theorem run_cons (s : ScrollState) (op : Op) (ops : List Op) :
    run s (op :: ops) = run (step s op) ops :=
  rfl

theorem run_append (s : ScrollState) (l1 l2 : List Op) :
    run s (l1 ++ l2) = run (run s l1) l2 :=
  List.foldl_append step s l1 l2

theorem inv_lock {s : ScrollState} (h : Inv s) : Inv (lock s).1 := by
  obtain ⟨h0, hov⟩ := h
  unfold lock Inv
  by_cases hz : s.lockCount = 0
  · simp [hz]
  · simp only [if_neg hz]
    refine ⟨by omega, fun _ => ?_⟩
    exact hov (by omega)

theorem inv_unlock {s : ScrollState} (h : Inv s) : Inv (unlock s).1 := by
  obtain ⟨h0, hov⟩ := h
  unfold unlock Inv
  by_cases hp : 0 < s.lockCount
  · by_cases h1 : s.lockCount - 1 = 0
    · simp [hp, h1]
    · simp only [if_pos hp, if_neg h1]
      refine ⟨by omega, fun _ => hov hp⟩
  · simp only [if_neg hp]
    exact ⟨h0, hov⟩

theorem inv_toggle {s : ScrollState} (h : Inv s) : Inv (toggle s).1 := by
  unfold toggle
  by_cases hl : (isLocked s).2
  · simpa [hl] using inv_unlock h
  · simpa [hl] using inv_lock h

theorem inv_scroll {s : ScrollState} (a : Option ScrollAction) (h : Inv s) :
    Inv (scroll a s).1 := by
  match a with
  | none => exact inv_toggle h
  | some (ScrollAction.boolean false) => exact inv_lock h
  | some (ScrollAction.boolean true) => exact inv_unlock h
  | some (ScrollAction.str tok) =>
      unfold scroll
      split
      all_goals first
        | exact inv_toggle h
        | exact inv_lock h
        | exact inv_unlock h

theorem inv_step {s : ScrollState} (op : Op) (h : Inv s) : Inv (step s op) := by
  cases op with
  | lock => exact inv_lock h
  | unlock => exact inv_unlock h
  | toggle => exact inv_toggle h
  | enable => exact inv_unlock h
  | disable => exact inv_lock h
  | call a => exact inv_scroll a h

theorem inv_run {s : ScrollState} (ops : List Op) (h : Inv s) :
    Inv (run s ops) := by
  induction ops generalizing s with
  | nil => exact h
  | cons op rest ih => exact ih (inv_step op h)

theorem inv_initState (v : String) : Inv (initState v) :=
  ⟨le_refl 0, fun h => absurd h (by simp [initState])⟩

theorem step_lock_pos (s : ScrollState) (h : 0 < s.lockCount) :
    step s Op.lock = { s with lockCount := s.lockCount + 1 } := by
  unfold step lock
  rw [if_neg (by omega)]

theorem step_unlock_big (s : ScrollState) (h : 1 < s.lockCount) :
    step s Op.unlock = { s with lockCount := s.lockCount - 1 } := by
  unfold step unlock
  rw [if_pos (by omega), if_neg (by omega)]

theorem run_locks (n : Nat) (s : ScrollState) (h : 0 < s.lockCount) :
    run s (List.replicate n Op.lock) =
      { s with lockCount := s.lockCount + n } := by
  induction n generalizing s with
  | zero => simp [run]
  | succ k ih =>
      rw [List.replicate_succ, run_cons, step_lock_pos s h,
        ih { s with lockCount := s.lockCount + 1 } (by simp; omega)]
      ext <;> simp
      ring

theorem run_unlocks (n : Nat) (s : ScrollState) (h : (n : Int) < s.lockCount) :
    run s (List.replicate n Op.unlock) =
      { s with lockCount := s.lockCount - n } := by
  induction n generalizing s with
  | zero => simp [run]
  | succ k ih =>
      rw [List.replicate_succ, run_cons, step_unlock_big s (by omega),
        ih { s with lockCount := s.lockCount - 1 } (by simp; omega)]
      ext <;> simp
      ring

theorem run_lock_unlock (v : String) (n : Nat) (h : 1 ≤ n) :
    run (initState v) (List.replicate n Op.lock ++ List.replicate n Op.unlock) =
      { lockCount := 0, overflow := v, savedOverflow := v, applyCount := 1,
        removeCount := 1 } := by
  obtain ⟨m, rfl⟩ : ∃ m, n = m + 1 := ⟨n - 1, by omega⟩
  rw [run_append, List.replicate_succ, run_cons]
  have hA : step (initState v) Op.lock =
      { lockCount := 1, overflow := "hidden", savedOverflow := v,
        applyCount := 1, removeCount := 0 } := rfl
  rw [hA, run_locks m _ (by simp)]
  rw [List.replicate_succ' m Op.unlock, run_append,
    run_unlocks m _ (by simp)]
  have hone : (1 : Int) + m - m = 1 := by ring
  show step (ScrollState.mk (1 + (m : Int) - m) "hidden" v 1 0) Op.unlock = _
  rw [hone]
  rfl

/-- A sample reachable state with two holders of the lock, used by the
concrete witnesses below. -/
def sampleLocked : ScrollState :=
  { lockCount := 2, overflow := "hidden", savedOverflow := "auto",
    applyCount := 1, removeCount := 0 }

/-- C1: for every sequence of lock/unlock/toggle/enable/disable/call
operations starting from LockCount = 0, getCount never returns a negative
value; a decrement attempted when LockCount is 0 is clamped to 0 (the state
is unchanged) and invokes no external side effect (the remove-block
invocation counter does not move). -/
theorem c1_count_never_negative (v : String) (ops : List Op)
    (s : ScrollState) (h : s.lockCount = 0) :
    0 ≤ (getCount (run (initState v) ops)).2 ∧
    (unlock s).1 = s ∧
    (unlock s).1.removeCount = s.removeCount := by
  have hno : (unlock s).1 = s := by
    unfold unlock
    rw [if_neg (by omega)]
  exact ⟨(inv_run ops (inv_initState v)).1, hno, by rw [hno]⟩

theorem c1_count_never_negative_witness :
    0 ≤ (getCount (run (initState "auto")
        [Op.lock, Op.unlock, Op.unlock])).2 ∧
    (unlock (initState "auto")).1 = initState "auto" ∧
    (unlock (initState "auto")).1.removeCount =
      (initState "auto").removeCount :=
  c1_count_never_negative "auto" [Op.lock, Op.unlock, Op.unlock]
    (initState "auto") rfl

/-- C2: for every state, lock increments LockCount by exactly 1, invokes the
external apply-block effect if and only if LockCount was 0 (the 0→1
transition), never invokes the remove-block effect, and returns false
unconditionally. -/
theorem c2_lock_contract (s : ScrollState) :
    (lock s).1.lockCount = s.lockCount + 1 ∧
    ((lock s).1.applyCount = s.applyCount + 1 ↔ s.lockCount = 0) ∧
    (lock s).1.removeCount = s.removeCount ∧
    (lock s).2 = false := by
  unfold lock
  by_cases hz : s.lockCount = 0 <;> simp [hz]

/-- C3: for every non-negative state, unlock decrements LockCount by 1 when
it is positive, invokes the external remove-block effect exactly when the
decrement reaches 0 (that is, when LockCount was 1), is a no-op when
LockCount is already 0, and returns true unconditionally. -/
theorem c3_unlock_contract (s : ScrollState) (h : 0 ≤ s.lockCount) :
    (0 < s.lockCount → (unlock s).1.lockCount = s.lockCount - 1) ∧
    ((unlock s).1.removeCount = s.removeCount + 1 ↔ s.lockCount = 1) ∧
    (s.lockCount = 0 → (unlock s).1 = s) ∧
    (unlock s).2 = true := by
  unfold unlock
  by_cases hp : 0 < s.lockCount
  · by_cases h1 : s.lockCount - 1 = 0
    · simp only [if_pos hp, if_neg (by omega : ¬s.lockCount = 0)]
      rw [if_pos h1]
      refine ⟨fun _ => by simp; omega, by simp; omega, fun hz => ?_, rfl⟩
      exact absurd hz (by omega)
    · simp only [if_pos hp]
      rw [if_neg h1]
      refine ⟨fun _ => rfl, by simp; omega, fun hz => ?_, rfl⟩
      exact absurd hz (by omega)
  · rw [if_neg hp]
    refine ⟨fun hgt => absurd hgt hp, by simp; omega, fun _ => rfl, rfl⟩

theorem c3_unlock_contract_witness :
    0 ≤ sampleLocked.lockCount ∧
    ((0 < sampleLocked.lockCount →
        (unlock sampleLocked).1.lockCount = sampleLocked.lockCount - 1) ∧
     ((unlock sampleLocked).1.removeCount = sampleLocked.removeCount + 1 ↔
        sampleLocked.lockCount = 1) ∧
     (sampleLocked.lockCount = 0 → (unlock sampleLocked).1 = sampleLocked) ∧
     (unlock sampleLocked).2 = true) :=
  ⟨by decide, c3_unlock_contract sampleLocked (by decide)⟩

/-- C4: at every state, isLocked returns true if and only if getCount is
positive; the locked state is derived from the count (isLocked is defined
from lockCount and stores nothing of its own). -/
theorem c4_isLocked_iff_count_pos (s : ScrollState) :
    (isLocked s).2 = true ↔ 0 < (getCount s).2 := by
  simp [isLocked, getCount]

/-- C5: for every N ≥ 1, starting from LockCount = 0, N lock calls followed
by N unlock calls leave isLocked false and getCount 0, with the external
block effect applied exactly once and removed exactly once. -/
theorem c5_balanced_lock_unlock (v : String) (n : Nat) (h : 1 ≤ n) :
    (isLocked (run (initState v)
        (List.replicate n Op.lock ++ List.replicate n Op.unlock))).2 =
      false ∧
    (getCount (run (initState v)
        (List.replicate n Op.lock ++ List.replicate n Op.unlock))).2 = 0 ∧
    (run (initState v)
        (List.replicate n Op.lock ++ List.replicate n Op.unlock)).applyCount
      = 1 ∧
    (run (initState v)
        (List.replicate n Op.lock ++ List.replicate n Op.unlock)).removeCount
      = 1 := by
  rw [run_lock_unlock v n h]
  simp [isLocked, getCount]

theorem c5_balanced_lock_unlock_witness :
    1 ≤ 2 ∧
    ((isLocked (run (initState "visible")
        (List.replicate 2 Op.lock ++ List.replicate 2 Op.unlock))).2 =
      false ∧
    (getCount (run (initState "visible")
        (List.replicate 2 Op.lock ++ List.replicate 2 Op.unlock))).2 = 0 ∧
    (run (initState "visible")
        (List.replicate 2 Op.lock ++ List.replicate 2 Op.unlock)).applyCount
      = 1 ∧
    (run (initState "visible")
        (List.replicate 2 Op.lock ++ List.replicate 2 Op.unlock)).removeCount
      = 1) :=
  ⟨by decide, c5_balanced_lock_unlock "visible" 2 (by decide)⟩

/-- C6: starting from LockCount = 0, toggle sets the count to 1 and returns
false; calling toggle again from that state returns the count to 0 and
returns true. -/
theorem c6_toggle_roundtrip (v : String) :
    (toggle (initState v)).2 = false ∧
    (getCount (toggle (initState v)).1).2 = 1 ∧
    (toggle (toggle (initState v)).1).2 = true ∧
    (getCount (toggle (toggle (initState v)).1).1).2 = 0 := by
  simp [toggle, lock, unlock, isLocked, getCount, initState]

/-- C7: invoking the callable entry point with "lock", "on", "1" or boolean
false equals a direct lock call; with "unlock", "off", "0" or boolean true
equals a direct unlock call; with no argument or with "toggle" equals a
direct toggle call — state transition and return value alike. -/
theorem c7_dispatch_equivalence (s : ScrollState) :
    scroll (some (ScrollAction.str "lock")) s = lock s ∧
    scroll (some (ScrollAction.str "on")) s = lock s ∧
    scroll (some (ScrollAction.str "1")) s = lock s ∧
    scroll (some (ScrollAction.boolean false)) s = lock s ∧
    scroll (some (ScrollAction.str "unlock")) s = unlock s ∧
    scroll (some (ScrollAction.str "off")) s = unlock s ∧
    scroll (some (ScrollAction.str "0")) s = unlock s ∧
    scroll (some (ScrollAction.boolean true)) s = unlock s ∧
    scroll none s = toggle s ∧
    scroll (some (ScrollAction.str "toggle")) s = toggle s :=
  ⟨rfl, rfl, rfl, rfl, rfl, rfl, rfl, rfl, rfl, rfl⟩

/-- C8: enable produces exactly the same state transition, external effects
and return value as unlock, and disable the same as lock. -/
theorem c8_aliases (s : ScrollState) :
    enable s = unlock s ∧ disable s = lock s :=
  ⟨rfl, rfl⟩

/-- C9: isLocked and getCount have no side effects: they return the state
unchanged, so LockCount and the body overflow style are untouched. -/
theorem c9_queries_no_side_effects (s : ScrollState) :
    (isLocked s).1 = s ∧ (getCount s).1 = s ∧
    (getCount (isLocked s).1).2 = (getCount s).2 ∧
    (isLocked s).1.overflow = s.overflow :=
  ⟨rfl, rfl, rfl, rfl⟩

/-- C10: the blocking effect is the body overflow style set to "hidden":
after any lock call on an invariant-respecting state the overflow is
"hidden"; unlock restores the saved prior overflow value exactly when the
count reaches 0 (from 1); and a balanced sequence of N ≥ 1 locks and N
unlocks restores the original overflow value of the page, not a hardcoded
default. -/
theorem c10_overflow_policy (v : String) (n : Nat) (s : ScrollState)
    (hs : Inv s) (hn : 1 ≤ n) :
    (lock s).1.overflow = "hidden" ∧
    (unlock s).1.overflow =
      (if s.lockCount = 1 then s.savedOverflow else s.overflow) ∧
    (run (initState v)
        (List.replicate n Op.lock ++ List.replicate n Op.unlock)).overflow
      = v := by
  refine ⟨?_, ?_, ?_⟩
  · unfold lock
    by_cases hz : s.lockCount = 0
    · simp [hz]
    · rw [if_neg hz]
      have h0 : 0 ≤ s.lockCount := hs.1
      exact hs.2 (by omega)
  · unfold unlock
    by_cases hp : 0 < s.lockCount
    · by_cases h1 : s.lockCount - 1 = 0
      · rw [if_pos hp, if_pos h1, if_pos (by omega)]
      · rw [if_pos hp, if_neg h1, if_neg (by omega)]
    · rw [if_neg hp, if_neg (by omega)]
  · rw [run_lock_unlock v n hn]

theorem c10_overflow_policy_witness :
    Inv sampleLocked ∧ 1 ≤ 1 ∧
    ((lock sampleLocked).1.overflow = "hidden" ∧
     (unlock sampleLocked).1.overflow =
       (if sampleLocked.lockCount = 1 then sampleLocked.savedOverflow
        else sampleLocked.overflow) ∧
     (run (initState "scroll")
        (List.replicate 1 Op.lock ++ List.replicate 1 Op.unlock)).overflow
       = "scroll") :=
  ⟨⟨by decide, fun _ => rfl⟩, by decide,
    c10_overflow_policy "scroll" 1 sampleLocked
      ⟨by decide, fun _ => rfl⟩ (by decide)⟩

end ScrollJS
